import Mathlib

set_option maxHeartbeats 1000000

/-!
Shallow embedding of the systrap subprocess supervision engine
(pkg/sentry/platform/systrap/subprocess.go, together with the embedded
x86-64 stub dispatcher __export_syshandler).

Pure Lean models of the relevant operations are defined first, translated
function-by-function from the Go source (line numbers cited in the doc
comments).  Machine integers are modelled as Nat/Int with explicit 2^64
bounds where overflow matters.  Code that panics or can fail returns an
inductive result type whose constructors separate normal returns,
returned errors, and process aborts.  External collaborators
(architecture register helpers, the memory allocator, ptrace itself) are
abstracted as parameters or boolean oracles, matching the spec's scoping.
-/

namespace Systrap

/-! ## Subprocess pool lifecycle (subprocess.Release, subprocess.unregisterContext) -/

/-- The lifecycle-relevant state of one subprocess together with its view of
the global pool: `released` and `numContexts` mirror the fields of
`subprocess` (subprocess.go:113-124), `contexts` is the bound-context set
(keyed by an abstract context id), and `inAvailablePool` records whether the
subprocess is currently a member of the global pool's available set. -/
structure PoolSubprocess where
  released : Bool
  numContexts : Int
  contexts : Finset Nat
  inAvailablePool : Bool
deriving DecidableEq

/-- Modelled from the spec: `globalPool.release` (the `subprocessPool` type
lives outside this file; only its call sites are in subprocess.go).  Spec:
"release(sp) — returns a Subprocess to the available set once idle"; "A
Subprocess can be concurrently released and still active from the pool's
perspective until its bound-context count drops to zero; only then is it
physically moved to the available set."  So release marks the subprocess
released and moves it to the available set exactly when no context is bound. -/
def poolRelease (s : PoolSubprocess) : PoolSubprocess :=
  let s1 := { s with released := true }
  if s1.numContexts = 0 then { s1 with inAvailablePool := true } else s1

/-- subprocess.unregisterContext (subprocess.go:845-861): removes the context
from the bound set, decrements `numContexts`, reads `released` under the lock,
and calls `globalPool.release` when `released && numContexts == 0`.  The
boolean result records whether `globalPool.release` was called. -/
def unregisterContext (s : PoolSubprocess) (c : Nat) : PoolSubprocess × Bool :=
  let s1 := { s with contexts := s.contexts.erase c,
                     numContexts := s.numContexts - 1 }
  if s1.released = true ∧ s1.numContexts = 0 then (poolRelease s1, true)
  else (s1, false)

/-- The pool membership invariant of §8 of the spec: a subprocess sits in the
available set iff it is released and has no bound contexts. -/
def poolInv (s : PoolSubprocess) : Prop :=
  s.inAvailablePool = true ↔ (s.released = true ∧ s.numContexts = 0)

instance (s : PoolSubprocess) : Decidable (poolInv s) := by
  unfold poolInv; infer_instance

/-! ## subprocess.Unmap and the per-context fault cache -/

/-- The fault cache of one context (context.lastFaultSP, context.lastFaultAddr,
referenced from subprocess.go:662-671).  Subprocesses are identified by an
abstract id; `lastFaultSP = some sid` models `c.lastFaultSP == s`. -/
structure FaultCtx where
  lastFaultSP : Option Nat
  lastFaultAddr : Nat
deriving DecidableEq

/-- The unmap-relevant state of a subprocess: its identity and the list of
contexts registered in `s.contexts`. -/
structure SubprocessAS where
  sid : Nat
  contexts : List FaultCtx
deriving DecidableEq

/-- 2^64: addresses and lengths are uintptr/uint64 values. -/
def u64Limit : Nat := 2 ^ 64

/-- One iteration of the scan loop of subprocess.Unmap (subprocess.go:662-673):
if `c.lastFaultSP == s && ar.Contains(c.lastFaultAddr)` (where `ar` is
`[addr, addr+length)`), clear `c.lastFaultSP` and drop `c` from the bound set.
The boolean result is `true` when the context stays in `s.contexts`. -/
def unmapScanCtx (sid addr length : Nat) (c : FaultCtx) : FaultCtx × Bool :=
  if c.lastFaultSP = some sid ∧ addr ≤ c.lastFaultAddr ∧
      c.lastFaultAddr < addr + length then
    ({ c with lastFaultSP := none }, false)
  else (c, true)

/-- Outcome of subprocess.Unmap.  `overflowPanic` is the panic at
subprocess.go:659 (raised before any state is read or written; it carries the
untouched context list), `munmapPanic` the panic at subprocess.go:681 (raised
after the scan; it carries the already-cleared context list), and `ok` the
normal return. -/
inductive UnmapResult where
  | overflowPanic (contexts : List (FaultCtx × Bool))
  | munmapPanic (contexts : List (FaultCtx × Bool))
  | ok (contexts : List (FaultCtx × Bool))
deriving DecidableEq

/-- subprocess.Unmap (subprocess.go:655-683).  `addr.ToRange(length)` fails
exactly when `addr + length` overflows uint64 (hostarch.Addr.AddLength checks
`end >= v` after wrapping addition), in which case Unmap panics immediately.
Otherwise every registered context is scanned with `unmapScanCtx` and then
munmap is injected; a munmap failure (the external oracle `munmapFails`)
panics after the scan. -/
def Unmap (s : SubprocessAS) (addr length : Nat) (munmapFails : Bool) :
    UnmapResult :=
  if addr + length < u64Limit then
    let scanned := s.contexts.map (unmapScanCtx s.sid addr length)
    if munmapFails then UnmapResult.munmapPanic scanned
    else UnmapResult.ok scanned
  else UnmapResult.overflowPanic (s.contexts.map (fun c => (c, true)))

/-! ## thread.syscallIgnoreInterrupt -/

/-- Linux kernel restart errno constants (subprocess.go:68-72). -/
def ERESTARTSYS : Nat := 512

/-- See `ERESTARTSYS`. -/
def ERESTARTNOINTR : Nat := 513

/-- See `ERESTARTSYS`. -/
def ERESTARTNOHAND : Nat := 514

/-- One (value, error) outcome of an injected syscall cycle performed by
thread.syscall.  `err = none` models a nil Go error. -/
structure SyscallOutcome where
  rval : Nat
  err : Option Nat
deriving DecidableEq

/-- The three-way errno test in the switch of thread.syscallIgnoreInterrupt
(subprocess.go:542-551). -/
def isRestartErr : Option Nat → Bool
  | some e => e == ERESTARTSYS || e == ERESTARTNOINTR || e == ERESTARTNOHAND
  | none => false

/-- thread.syscallIgnoreInterrupt (subprocess.go:535-553).  Each loop
iteration rebuilds the registers with createSyscallRegs and runs one full
injection cycle through thread.syscall; the successive cycle outcomes form
the oracle list.  The result pairs the outcome returned to the caller with
the number of injection cycles performed; `none` means every supplied
outcome was a restart errno (the loop is still running). -/
def syscallIgnoreInterrupt : List SyscallOutcome → Option (SyscallOutcome × Nat)
  | [] => none
  | o :: rest =>
    if isRestartErr o.err then
      match syscallIgnoreInterrupt rest with
      | none => none
      | some (r, n) => some (r, n + 1)
    else some (o, 1)

/-! ## subprocess.switchToApp -/

/-- Message event types (package sysmsg; values referenced from
subprocess.go:591-627 and the stub dispatcher). -/
inductive EventType where
  | noneEv
  | syscall
  | syscallCanBePatched
  | syscallTrap
  | fault
  | interrupt
deriving DecidableEq

/-- The signal-info block stored into the context (linux.SignalInfo; only the
signal number matters to the claims). -/
structure SigInfo where
  signo : Int
deriving DecidableEq

/-- Modelled from the spec: platform.SignalInterrupt, the signal reserved for
interrupting a stub thread (defined in the platform package, outside this
file; it is SIGCHLD = 17 on Linux — the exact value is immaterial here). -/
def SignalInterrupt : Int := 17

/-- The inputs of one subprocess.switchToApp call (subprocess.go:565-628)
that determine its control flow.  External collaborators are abstracted:
`getThreadErr` is a failure of getSysmsgThread, `interruptPending` is
`!c.interrupt.Enable(sysThread)`, `msgType`/`msgErr`/`msgSignalInfo` are the
Message fields after the `Done` transition, `fpuOffset` is the result of
`msg.FPUStateOffset()` (`none` = error), `spurious` is the result of
maybePatchSignalInfo (true when the delivered signal was spuriously injected
by the supervisor itself), and `prevFpuOffset` is the thread's cached
`fpuStateToMsgOffset` before the call. -/
structure SwitchInputs where
  getThreadErr : Bool
  interruptPending : Bool
  msgType : EventType
  msgErr : Nat
  fpuOffset : Option Nat
  msgSignalInfo : SigInfo
  spurious : Bool
  prevFpuOffset : Nat
deriving DecidableEq

/-- Which failing collaborator produced a returned (recoverable) error of
switchToApp.  No constructor carries a Message error code: a returned error
is never built from `msg.Err`. -/
inductive ErrSrc where
  | getThreadFailed
  | fpuOffsetFailed
deriving DecidableEq

/-- Result of switchToApp: a normal `(isSyscall, shouldPatchSyscall)` return
with a nil error, a returned non-nil error, or a process abort (panic). -/
inductive SwitchResult where
  | ok (isSyscall shouldPatchSyscall : Bool)
  | errReturn (src : ErrSrc)
  | panics
deriving DecidableEq

/-- Observable side effects of one switchToApp call: whether the guest
registers were published into the Message and the `Done` transition awaited
(subprocess.go:587-589), the signal-info stored into the context, the
thread's cached FPU-state offset after the call, and the final value of
`msg.Type` (after the SyscallCanBePatched rewrite, if any). -/
structure SwitchEffects where
  publishedRegs : Bool
  waitedDone : Bool
  signalInfo : Option SigInfo
  fpuStateToMsgOffset : Nat
  finalMsgType : EventType
deriving DecidableEq

/-- Effects before anything has happened: nothing published, signal-info
untouched, cached FPU offset untouched, message type as delivered. -/
def switchEff0 (i : SwitchInputs) : SwitchEffects :=
  { publishedRegs := false, waitedDone := false, signalInfo := none,
    fpuStateToMsgOffset := i.prevFpuOffset, finalMsgType := i.msgType }

/-- Effects after `msg.Regs = regs.PtraceRegs; msg.EnableSentryFastPath();
sysThread.waitEvent(StateDone)` (subprocess.go:587-589). -/
def switchEff1 (i : SwitchInputs) : SwitchEffects :=
  { switchEff0 i with publishedRegs := true, waitedDone := true }

/-- The classification tail of switchToApp (subprocess.go:617-627), entered
with `msg.Type` already rewritten into `eff.finalMsgType` and
`shouldPatch` set accordingly. -/
def switchToAppFinish (i : SwitchInputs) (shouldPatch : Bool)
    (eff : SwitchEffects) : SwitchResult × SwitchEffects :=
  if eff.finalMsgType = EventType.syscall ∨
      eff.finalMsgType = EventType.syscallTrap then
    if i.spurious then (SwitchResult.ok false false, eff)
    else (SwitchResult.ok true shouldPatch, eff)
  else if eff.finalMsgType = EventType.fault then
    (SwitchResult.ok false false, eff)
  else (SwitchResult.panics, eff)

/-- subprocess.go:611-615: store `msg.SignalInfo` into the context, then
rewrite SyscallCanBePatched to Syscall while setting `shouldPatchSyscall`. -/
def switchToAppClassify (i : SwitchInputs) (eff : SwitchEffects) :
    SwitchResult × SwitchEffects :=
  if i.msgType = EventType.syscallCanBePatched then
    switchToAppFinish i true { eff with finalMsgType := EventType.syscall }
  else
    switchToAppFinish i false { eff with finalMsgType := i.msgType }

/-- subprocess.go:601-615: the in-band error check (`msg.Err != 0` panics)
followed by signal-info storage and classification. -/
def switchToAppTail (i : SwitchInputs) (eff : SwitchEffects) :
    SwitchResult × SwitchEffects :=
  if i.msgErr ≠ 0 then (SwitchResult.panics, eff)
  else switchToAppClassify i { eff with signalInfo := some i.msgSignalInfo }

/-- subprocess.switchToApp (subprocess.go:565-628), step by step:
getSysmsgThread (error returned unchanged); interrupt arming with the
pending-interrupt short circuit (subprocess.go:579-583); publishing the
registers and waiting for `Done`; the FPU-offset refresh (subprocess.go:
591-599 — on a FPUStateOffset error the Go multi-assignment stores the
returned zero offset and the error is returned); then `switchToAppTail`. -/
def switchToApp (i : SwitchInputs) : SwitchResult × SwitchEffects :=
  if i.getThreadErr then
    (SwitchResult.errReturn ErrSrc.getThreadFailed, switchEff0 i)
  else if i.interruptPending then
    (SwitchResult.ok false false,
      { switchEff0 i with signalInfo := some { signo := SignalInterrupt } })
  else if i.msgType ≠ EventType.syscallTrap then
    match i.fpuOffset with
    | none => (SwitchResult.errReturn ErrSrc.fpuOffsetFailed,
        { switchEff1 i with fpuStateToMsgOffset := 0 })
    | some v => switchToAppTail i { switchEff1 i with fpuStateToMsgOffset := v }
  else switchToAppTail i { switchEff1 i with fpuStateToMsgOffset := 0 }

/-- Result of the initialization check in subprocess.getSysmsgThread after
`sysThread.waitEvent(sysmsg.StateNone)` (subprocess.go:817-826): a nonzero
`msg.Err` panics; a FPUStateOffset error destroys the thread and returns the
error; otherwise the offset is cached. -/
inductive InitCheckResult where
  | panics
  | errDestroyed
  | ok (fpuOffset : Nat)
deriving DecidableEq

/-- See `InitCheckResult`. -/
def getSysmsgThreadInitCheck (msgErr : Nat) (fpuOffset : Option Nat) :
    InitCheckResult :=
  if msgErr ≠ 0 then InitCheckResult.panics
  else
    match fpuOffset with
    | none => InitCheckResult.errDestroyed
    | some v => InitCheckResult.ok v

/-! ## thread.wait and thread.unexpectedStubExit -/

/-- Signal and ptrace constants used by thread.wait (values from the Linux
ABI, as exposed by golang.org/x/sys/unix). -/
def SIGTRAP : Nat := 5

/-- See `SIGTRAP`. -/
def SIGKILL : Nat := 9

/-- See `SIGTRAP`. -/
def PTRACE_EVENT_EXIT : Nat := 6

/-- The decoded fields of one wait status (unix.WaitStatus) that thread.wait
inspects in the `stopped` outcome. -/
structure WaitStatusS where
  isStopped : Bool
  stopSig : Nat
  trapCause : Nat
deriving DecidableEq

/-- The decoded tracee exit status fetched by PTRACE_GETEVENTMSG in
thread.unexpectedStubExit (subprocess.go:406-407). -/
structure EventStatus where
  isSignaled : Bool
  termSig : Nat
deriving DecidableEq

/-- One outcome of the wait4 call inside the loop of thread.wait
(subprocess.go:426-435): EINTR/EAGAIN (retried), any other error (panic),
a mismatched returned pid (panic), or a wait status. -/
inductive W4 where
  | eintr
  | eagain
  | otherErr
  | wrongPid
  | ev (st : WaitStatusS)
deriving DecidableEq

/-- Result of thread.wait in the `stopped` outcome: a returned signal value,
process termination via the SIGKILL the tracer forwarded to itself, a panic
with a register dump (thread.dumpAndPanic), a plain panic, or still blocked
in the loop (the oracle list ran out). -/
inductive ThreadWaitRes where
  | sig (s : Nat)
  | selfKilledBySIGKILL
  | panicRegDump
  | panicPlain
  | blocked
deriving DecidableEq

/-- thread.unexpectedStubExit (subprocess.go:405-417): if the tracee exit
status says it was killed by SIGKILL, the event is logged and
`unix.Tgkill(pid, pid, SIGKILL)` forwards SIGKILL to the tracer's own
process — SIGKILL cannot be handled, so the calling thread never executes
the `dumpAndPanic` line that follows and the process terminates without
panicking.  Every other unexpected exit reaches `dumpAndPanic`. -/
def unexpectedStubExit (ev : EventStatus) : ThreadWaitRes :=
  if ev.isSignaled && ev.termSig == SIGKILL then
    ThreadWaitRes.selfKilledBySIGKILL
  else ThreadWaitRes.panicRegDump

/-- thread.wait with the `stopped` outcome (subprocess.go:422-464), driven by
the list of successive wait4 outcomes: EINTR/EAGAIN loop, other errors and
pid mismatches panic, non-stop statuses dump-and-panic, zero stop signals
are spurious and loop, a SIGTRAP stop with trap cause PTRACE_EVENT_EXIT goes
to unexpectedStubExit, any other SIGTRAP stop returns the signal with the
trap cause re-encoded in the high byte, and any other stop signal is
returned as is. -/
def threadWaitStopped (evMsg : EventStatus) : List W4 → ThreadWaitRes
  | [] => ThreadWaitRes.blocked
  | W4.eintr :: rest => threadWaitStopped evMsg rest
  | W4.eagain :: rest => threadWaitStopped evMsg rest
  | W4.otherErr :: _ => ThreadWaitRes.panicPlain
  | W4.wrongPid :: _ => ThreadWaitRes.panicPlain
  | W4.ev st :: rest =>
    if st.isStopped = false then ThreadWaitRes.panicRegDump
    else if st.stopSig = 0 then threadWaitStopped evMsg rest
    else if st.stopSig = SIGTRAP then
      if st.trapCause = PTRACE_EVENT_EXIT then unexpectedStubExit evMsg
      else ThreadWaitRes.sig (st.stopSig + st.trapCause * 256)
    else ThreadWaitRes.sig st.stopSig

/-! ## The stub dispatcher __export_syshandler (sysmsg assembly blob) -/

/-- The nine caller-clobbered registers saved and restored by the dispatcher. -/
inductive GPReg where
  | rbp
  | r11
  | r10
  | r9
  | r8
  | rdi
  | rsi
  | rdx
  | rcx
deriving DecidableEq

/-- The machine state visible to the dispatcher: the nine saved registers,
rax and rsp, the dispatcher stack, and the sysmsg fields it reads and
writes (`msg->type`, `msg->interrupt`, `msg->ret_addr`, `msg->app_stack`). -/
structure SysState where
  rbp : Nat
  r11 : Nat
  r10 : Nat
  r9 : Nat
  r8 : Nat
  rdi : Nat
  rsi : Nat
  rdx : Nat
  rcx : Nat
  rax : Nat
  rsp : Nat
  stack : List Nat
  msgType : EventType
  msgInterrupt : Nat
  msgRetAddr : Nat
  appStack : Nat
deriving DecidableEq

/-- Read one of the nine saved registers. -/
def getReg : GPReg → SysState → Nat
  | GPReg.rbp, s => s.rbp
  | GPReg.r11, s => s.r11
  | GPReg.r10, s => s.r10
  | GPReg.r9, s => s.r9
  | GPReg.r8, s => s.r8
  | GPReg.rdi, s => s.rdi
  | GPReg.rsi, s => s.rsi
  | GPReg.rdx, s => s.rdx
  | GPReg.rcx, s => s.rcx

/-- Write one of the nine saved registers. -/
def setReg : GPReg → Nat → SysState → SysState
  | GPReg.rbp, v, s => { s with rbp := v }
  | GPReg.r11, v, s => { s with r11 := v }
  | GPReg.r10, v, s => { s with r10 := v }
  | GPReg.r9, v, s => { s with r9 := v }
  | GPReg.r8, v, s => { s with r8 := v }
  | GPReg.rdi, v, s => { s with rdi := v }
  | GPReg.rsi, v, s => { s with rsi := v }
  | GPReg.rdx, v, s => { s with rdx := v }
  | GPReg.rcx, v, s => { s with rcx := v }

/-- A push instruction: the current register value goes on top of the stack. -/
def pushReg (r : GPReg) (s : SysState) : SysState :=
  { s with stack := getReg r s :: s.stack }

/-- A pop instruction: the top of the stack goes into the register. -/
def popReg (r : GPReg) (s : SysState) : SysState :=
  match s.stack with
  | [] => s
  | v :: rest => setReg r v { s with stack := rest }

/-- The push sequence of __export_syshandler (sysmsg blob, push %rbp through
push %rcx). -/
def pushOrder : List GPReg :=
  [GPReg.rbp, GPReg.r11, GPReg.r10, GPReg.r9, GPReg.r8,
   GPReg.rdi, GPReg.rsi, GPReg.rdx, GPReg.rcx]

/-- The pop sequence of __export_syshandler (pop %rcx through pop %rbp). -/
def popOrder : List GPReg :=
  [GPReg.rcx, GPReg.rdx, GPReg.rsi, GPReg.rdi, GPReg.r8,
   GPReg.r9, GPReg.r10, GPReg.r11, GPReg.rbp]

/-- The effect of `callq __syshandler` on the state: the internal C handler
may clobber every caller-saved register and rewrite the sysmsg fields, but
by the calling convention it leaves the dispatcher stack as it found it. -/
structure HandlerEffect where
  rbp : Nat
  r11 : Nat
  r10 : Nat
  r9 : Nat
  r8 : Nat
  rdi : Nat
  rsi : Nat
  rdx : Nat
  rcx : Nat
  rax : Nat
  msgType : EventType
  msgInterrupt : Nat
  msgRetAddr : Nat
  appStack : Nat
deriving DecidableEq

/-- Apply the handler's clobbers to the state (stack untouched). -/
def applyHandler (e : HandlerEffect) (s : SysState) : SysState :=
  { s with rbp := e.rbp, r11 := e.r11, r10 := e.r10, r9 := e.r9, r8 := e.r8,
           rdi := e.rdi, rsi := e.rsi, rdx := e.rdx, rcx := e.rcx,
           rax := e.rax, msgType := e.msgType, msgInterrupt := e.msgInterrupt,
           msgRetAddr := e.msgRetAddr, appStack := e.appStack }

/-- How control leaves the dispatcher: an indirect jump through the saved
return address (listing the syscall numbers issued on the way), or a trap
raised by FAULT_OPCODE. -/
inductive SysOutcome where
  | jumpTo (addr : Nat) (syscallsIssued : List Nat)
  | faultTriggered (syscallsIssued : List Nat)
deriving DecidableEq

/-- The state right after the pops and `movq %gs:app_stack, %rsp`. -/
def afterRestore (e : HandlerEffect) (s0 : SysState) : SysState :=
  let s1 := List.foldl (fun s r => pushReg r s) s0 pushOrder
  let s2 := applyHandler e s1
  let s3 := List.foldl (fun s r => popReg r s) s2 popOrder
  { s3 with rsp := s3.appStack }

/-- __export_syshandler (sysmsg assembly blob): push the nine registers, call
__syshandler, pop them back, reload rsp from `msg->app_stack`; then if
`msg->type == SYSCALL`, load the sentinel 0xffff into eax, issue one syscall
instruction and jump to `msg->ret_addr`; otherwise if `msg->interrupt != 0`,
store INTERRUPT into `msg->type` and execute FAULT_OPCODE; otherwise jump to
`msg->ret_addr`. -/
def exportSyshandler (e : HandlerEffect) (s0 : SysState) :
    SysOutcome × SysState :=
  let s4 := afterRestore e s0
  if s4.msgType = EventType.syscall then
    (SysOutcome.jumpTo s4.msgRetAddr [0xffff], { s4 with rax := 0xffff })
  else if s4.msgInterrupt ≠ 0 then
    (SysOutcome.faultTriggered [], { s4 with msgType := EventType.interrupt })
  else (SysOutcome.jumpTo s4.msgRetAddr [], s4)

/-! ## Theorems -/

/-- C1: a subprocess is handed back to the global available pool iff
`released` is true and `numContexts` equals 0: `unregisterContext` removes
the context from the bound set, decrements `numContexts`, and calls
`globalPool.release` exactly when `released` holds and the count has reached
zero; the pool invariant is preserved; and `poolRelease` applied to a
subprocess that still owns contexts marks it released but leaves it out of
the available set (deferred reclamation). -/
theorem unregisterContext_release_iff (s : PoolSubprocess) (c : Nat)
    (hinv : poolInv s) (hn : 1 ≤ s.numContexts) :
    ((unregisterContext s c).2 = true ↔
       (s.released = true ∧ s.numContexts = 1)) ∧
    (unregisterContext s c).1.contexts = s.contexts.erase c ∧
    c ∉ (unregisterContext s c).1.contexts ∧
    (unregisterContext s c).1.numContexts = s.numContexts - 1 ∧
    poolInv (unregisterContext s c).1 ∧
    (poolRelease s).released = true ∧
    (poolRelease s).inAvailablePool = false := by
  obtain ⟨rel, n, ctxs, avail⟩ := s
  simp only [poolInv] at hinv
  dsimp only at hinv hn
  have havail : avail = false := by
    cases avail
    · rfl
    · have h0 := (hinv.mp rfl).2
      omega
  subst havail
  have hnz : ¬ (n = 0) := by omega
  dsimp only [unregisterContext, poolRelease, poolInv]
  rw [if_neg hnz]
  by_cases h : rel = true ∧ n - 1 = 0
  · rw [if_pos h, if_pos h.2]
    refine ⟨⟨fun _ => ⟨h.1, by omega⟩, fun _ => rfl⟩, rfl,
      Finset.not_mem_erase c ctxs, rfl, ?_, rfl, rfl⟩
    simp [h.2]
  · rw [if_neg h]
    refine ⟨?_, rfl, Finset.not_mem_erase c ctxs, rfl, ?_, rfl, rfl⟩
    · constructor
      · intro hh
        simp at hh
      · intro hh
        exact (h ⟨hh.1, by omega⟩).elim
    · constructor
      · intro hh
        simp at hh
      · intro hh
        exact (h hh).elim

/-- C1 witness: a released subprocess with a single bound context is handed
to the available pool when that context unregisters. -/
theorem unregisterContext_release_iff_witness :
    (unregisterContext ⟨true, 1, {5}, false⟩ 5).2 = true ∧
    (unregisterContext ⟨true, 1, {5}, false⟩ 5).1.inAvailablePool = true := by
  have h := unregisterContext_release_iff ⟨true, 1, {5}, false⟩ 5
    (by decide) (by decide)
  refine ⟨h.1.mpr ⟨rfl, rfl⟩, ?_⟩
  exact (h.2.2.2.2.1).mpr (by decide)

/-- C2: for non-overflowing ranges, Unmap clears the cached fault state
(clears `lastFaultSP` and drops the context from the bound set) of exactly
the registered contexts whose `lastFaultSP` is this subprocess and whose
`lastFaultAddr` lies in `[addr, addr+length)`, and leaves every context whose
cached address lies outside that range (or whose cache points at another
subprocess) unchanged. -/
theorem Unmap_clears_exact_range (s : SubprocessAS) (addr length : Nat)
    (h : addr + length < u64Limit) :
    Unmap s addr length false =
      UnmapResult.ok (s.contexts.map (unmapScanCtx s.sid addr length)) ∧
    (∀ c : FaultCtx, c.lastFaultSP = some s.sid → addr ≤ c.lastFaultAddr →
       c.lastFaultAddr < addr + length →
       unmapScanCtx s.sid addr length c =
         ({ c with lastFaultSP := none }, false)) ∧
    (∀ c : FaultCtx, ¬(addr ≤ c.lastFaultAddr ∧ c.lastFaultAddr < addr + length) →
       unmapScanCtx s.sid addr length c = (c, true)) ∧
    (∀ c : FaultCtx, c.lastFaultSP ≠ some s.sid →
       unmapScanCtx s.sid addr length c = (c, true)) := by
  refine ⟨by simp [Unmap, h], ?_, ?_, ?_⟩
  · intro c h1 h2 h3
    simp [unmapScanCtx, h1, h2, h3]
  · intro c hc
    simp only [unmapScanCtx]
    rw [if_neg]
    intro hcon
    exact hc ⟨hcon.2.1, hcon.2.2⟩
  · intro c hc
    simp only [unmapScanCtx]
    rw [if_neg]
    intro hcon
    exact hc hcon.1

/-- C2 witness: unmapping `[16, 32)` from subprocess 1 clears exactly the
context caching `(subprocess 1, address 20)` and keeps the contexts caching
an out-of-range address, another subprocess, or no fault. -/
theorem Unmap_clears_exact_range_witness :
    Unmap ⟨1, [⟨some 1, 20⟩, ⟨some 1, 100⟩, ⟨some 2, 20⟩, ⟨none, 20⟩]⟩
        16 16 false =
      UnmapResult.ok [(⟨none, 20⟩, false), (⟨some 1, 100⟩, true),
                      (⟨some 2, 20⟩, true), (⟨none, 20⟩, true)] := by
  have h := (Unmap_clears_exact_range
    ⟨1, [⟨some 1, 20⟩, ⟨some 1, 100⟩, ⟨some 2, 20⟩, ⟨none, 20⟩]⟩
    16 16 (by decide)).1
  rw [h]
  rfl

/-- C10: Unmap panics on an overflowing range before touching any fault
cache; a munmap failure panics only after the caches have been cleared; and
a normal return implies both that munmap succeeded and that the caches were
invalidated. -/
theorem Unmap_panic_ordering (s : SubprocessAS) (addr length : Nat) (mf : Bool)
    (haddr : addr < u64Limit) (hlen : length < u64Limit) :
    (u64Limit ≤ addr + length →
       Unmap s addr length mf =
         UnmapResult.overflowPanic (s.contexts.map (fun c => (c, true)))) ∧
    (addr + length < u64Limit → mf = true →
       Unmap s addr length mf =
         UnmapResult.munmapPanic
           (s.contexts.map (unmapScanCtx s.sid addr length))) ∧
    (∀ res, Unmap s addr length mf = UnmapResult.ok res →
       mf = false ∧ addr + length < u64Limit ∧
       res = s.contexts.map (unmapScanCtx s.sid addr length)) := by
  refine ⟨?_, ?_, ?_⟩
  · intro hov
    have hnot : ¬ (addr + length < u64Limit) := not_lt.mpr hov
    simp [Unmap, hnot]
  · intro hlt hmf
    subst hmf
    simp [Unmap, hlt]
  · intro res hres
    by_cases hlt : addr + length < u64Limit
    · cases mf with
      | true => simp [Unmap, hlt] at hres
      | false =>
        simp only [Unmap, if_pos hlt, if_neg Bool.false_ne_true,
          UnmapResult.ok.injEq] at hres
        exact ⟨rfl, hlt, hres.symm⟩
    · simp [Unmap, hlt] at hres

/-- C10 witness: an overflowing range panics with the caches untouched, and
a failing munmap panics with the caches already cleared. -/
theorem Unmap_panic_ordering_witness :
    Unmap ⟨1, [⟨some 1, 20⟩]⟩ (2 ^ 63) (2 ^ 63) false =
      UnmapResult.overflowPanic [(⟨some 1, 20⟩, true)] ∧
    Unmap ⟨1, [⟨some 1, 20⟩]⟩ 16 16 true =
      UnmapResult.munmapPanic [(⟨none, 20⟩, false)] := by
  constructor
  · have h := (Unmap_panic_ordering ⟨1, [⟨some 1, 20⟩]⟩ (2 ^ 63) (2 ^ 63) false
      (by decide) (by decide)).1 (by decide)
    rw [h]
    rfl
  · have h := (Unmap_panic_ordering ⟨1, [⟨some 1, 20⟩]⟩ 16 16 true
      (by decide) (by decide)).2.1 (by decide) rfl
    rw [h]
    rfl

/-- Helper: the head of `dropWhile p l`, when it exists, falsifies `p`. -/
theorem head_dropWhile_false {α : Type} (p : α → Bool) :
    ∀ (l : List α) (a : α), (l.dropWhile p).head? = some a → p a = false := by
  intro l
  induction l with
  | nil => intro a h; simp at h
  | cons x rest ih =>
    intro a h
    by_cases hx : p x
    · rw [List.dropWhile_cons_of_pos hx] at h
      exact ih a h
    · rw [List.dropWhile_cons_of_neg hx] at h
      simp only [List.head?_cons, Option.some.injEq] at h
      subst h
      simp only [Bool.not_eq_true] at hx
      exact hx

/-- Helper: closed form of `syscallIgnoreInterrupt`: it yields the first
outcome that is not a kernel-restart errno, after one injection cycle per
leading restart outcome plus the final one. -/
theorem syscallIgnoreInterrupt_eq (outs : List SyscallOutcome) :
    syscallIgnoreInterrupt outs =
      ((outs.dropWhile (fun o => isRestartErr o.err)).head?).map
        (fun o => (o, (outs.takeWhile (fun o => isRestartErr o.err)).length + 1)) := by
  induction outs with
  | nil => rfl
  | cons x rest ih =>
    by_cases hx : isRestartErr x.err
    · simp only [syscallIgnoreInterrupt, List.dropWhile_cons,
        List.takeWhile_cons, hx, if_true, ih]
      cases hh : (rest.dropWhile fun o => isRestartErr o.err).head? <;> simp [hh]
    · simp [syscallIgnoreInterrupt, List.dropWhile_cons, List.takeWhile_cons, hx]

/-- C3: thread.syscallIgnoreInterrupt retries the full register-setup and
injection cycle exactly while the injected syscall reports ERESTARTSYS (512),
ERESTARTNOINTR (513) or ERESTARTNOHAND (514): its result is the first
(value, error) outcome that is not one of the three restart errnos, returned
unchanged, reached after exactly one cycle per leading restart outcome plus
one; in particular a restart errno is never observable in its result. -/
theorem syscallIgnoreInterrupt_retries_only_restart
    (outs : List SyscallOutcome) :
    syscallIgnoreInterrupt outs =
      ((outs.dropWhile (fun o => isRestartErr o.err)).head?).map
        (fun o => (o, (outs.takeWhile (fun o => isRestartErr o.err)).length + 1)) ∧
    (∀ o n, syscallIgnoreInterrupt outs = some (o, n) →
       isRestartErr o.err = false ∧
       n = (outs.takeWhile (fun o => isRestartErr o.err)).length + 1) := by
  refine ⟨syscallIgnoreInterrupt_eq outs, ?_⟩
  intro o n hsome
  rw [syscallIgnoreInterrupt_eq] at hsome
  cases hh : (outs.dropWhile (fun o => isRestartErr o.err)).head? with
  | none => rw [hh] at hsome; simp at hsome
  | some r =>
    rw [hh] at hsome
    injection hsome with h1
    injection h1 with hro hn
    subst hro
    subst hn
    exact ⟨head_dropWhile_false _ outs _ hh, rfl⟩

/-- C3 witness: two leading ERESTARTSYS/ERESTARTNOHAND outcomes are retried
and the first non-restart outcome (value 7, errno 4) is returned unchanged
after three cycles. -/
theorem syscallIgnoreInterrupt_retries_only_restart_witness :
    syscallIgnoreInterrupt
        [⟨0, some 512⟩, ⟨0, some 514⟩, ⟨7, some 4⟩, ⟨1, none⟩] =
      some (⟨7, some 4⟩, 3) ∧
    isRestartErr (some 4) = false := by
  have h := syscallIgnoreInterrupt_retries_only_restart
    [⟨0, some 512⟩, ⟨0, some 514⟩, ⟨7, some 4⟩, ⟨1, none⟩]
  refine ⟨?_, ?_⟩
  · rw [h.1]
    rfl
  · exact (h.2 ⟨7, some 4⟩ 3 (by rw [h.1]; rfl)).1

/-- Helper: the classification tail never mutates the effects record. -/
theorem switchToAppFinish_snd (i : SwitchInputs) (b : Bool)
    (eff : SwitchEffects) : (switchToAppFinish i b eff).2 = eff := by
  unfold switchToAppFinish
  split_ifs <;> rfl

/-- Helper: the classification step keeps the cached FPU offset. -/
theorem switchToAppClassify_fpu (i : SwitchInputs) (eff : SwitchEffects) :
    (switchToAppClassify i eff).2.fpuStateToMsgOffset =
      eff.fpuStateToMsgOffset := by
  unfold switchToAppClassify
  split_ifs <;> rw [switchToAppFinish_snd]

/-- Helper: everything after the FPU-offset refresh keeps the cached offset. -/
theorem switchToAppTail_fpu (i : SwitchInputs) (eff : SwitchEffects) :
    (switchToAppTail i eff).2.fpuStateToMsgOffset =
      eff.fpuStateToMsgOffset := by
  unfold switchToAppTail
  split_ifs
  · rfl
  · rw [switchToAppClassify_fpu]

/-- Helper: when getSysmsgThread succeeds, no interrupt is pending and the
FPU offset step does not fail, switchToApp reaches the error check and the
classification with the registers published and the Done transition
awaited. -/
theorem switchToApp_reach (i : SwitchInputs) (hg : i.getThreadErr = false)
    (hp : i.interruptPending = false)
    (hre : i.msgType = EventType.syscallTrap ∨ i.fpuOffset.isSome = true) :
    ∃ w, switchToApp i =
      switchToAppTail i { switchEff1 i with fpuStateToMsgOffset := w } := by
  rcases hre with ht | hfo
  · exact ⟨0, by simp [switchToApp, hg, hp, ht]⟩
  · obtain ⟨v, hv⟩ := Option.isSome_iff_exists.mp hfo
    by_cases ht : i.msgType = EventType.syscallTrap
    · exact ⟨0, by simp [switchToApp, hg, hp, ht]⟩
    · exact ⟨v, by simp [switchToApp, hg, hp, ht, hv]⟩

/-- C5: when an interrupt is already pending as interrupt delivery is armed
(`c.interrupt.Enable` returns false), switchToApp stores a synthesized
signal-info carrying SignalInterrupt into the context and returns
`(isSyscall := false, shouldPatchSyscall := false)` with a nil error,
without publishing guest registers into the Message and without waiting for
the guest. -/
theorem switchToApp_pending_interrupt_shortcircuit (i : SwitchInputs)
    (hg : i.getThreadErr = false) (hp : i.interruptPending = true) :
    switchToApp i =
      (SwitchResult.ok false false,
        { publishedRegs := false, waitedDone := false,
          signalInfo := some { signo := SignalInterrupt },
          fpuStateToMsgOffset := i.prevFpuOffset,
          finalMsgType := i.msgType }) := by
  simp [switchToApp, hg, hp, switchEff0]

/-- C5 witness. -/
theorem switchToApp_pending_interrupt_shortcircuit_witness :
    switchToApp ⟨false, true, EventType.fault, 0, none, ⟨2⟩, false, 42⟩ =
      (SwitchResult.ok false false,
        ⟨false, false, some ⟨SignalInterrupt⟩, 42, EventType.fault⟩) :=
  switchToApp_pending_interrupt_shortcircuit _ rfl rfl

/-- C6: in every round-trip that reaches the Done state, the cached FPU
offset of the bound sysmsg thread is refreshed from the Message exactly when
the event is not EventTypeSyscallTrap; on EventTypeSyscallTrap it is set to
zero independently of the Message's offset. -/
theorem switchToApp_fpu_offset_refresh (i : SwitchInputs)
    (hg : i.getThreadErr = false) (hp : i.interruptPending = false) :
    (i.msgType = EventType.syscallTrap →
       (switchToApp i).2.fpuStateToMsgOffset = 0) ∧
    (∀ v, i.msgType ≠ EventType.syscallTrap → i.fpuOffset = some v →
       (switchToApp i).2.fpuStateToMsgOffset = v) := by
  constructor
  · intro ht
    simp [switchToApp, hg, hp, ht, switchToAppTail_fpu]
  · intro v hne hfo
    simp [switchToApp, hg, hp, hne, hfo, switchToAppTail_fpu]

/-- C6 witness: a SyscallTrap event zeroes the cached offset even though the
Message reports offset 5; a Fault event refreshes it to the Message's 5. -/
theorem switchToApp_fpu_offset_refresh_witness :
    (switchToApp ⟨false, false, EventType.syscallTrap, 0, some 5, ⟨9⟩,
        false, 7⟩).2.fpuStateToMsgOffset = 0 ∧
    (switchToApp ⟨false, false, EventType.fault, 0, some 5, ⟨9⟩,
        false, 7⟩).2.fpuStateToMsgOffset = 5 := by
  constructor
  · exact (switchToApp_fpu_offset_refresh _ rfl rfl).1 rfl
  · exact (switchToApp_fpu_offset_refresh _ rfl rfl).2 5 (by decide) rfl

/-- C7: a nonzero msg.Err observed after a message-state transition aborts
the process: in the steady-state switchToApp round-trip every path reaching
the error check with `msg.Err != 0` panics, during SysmsgThread
initialization a nonzero msg.Err panics, and a returned (recoverable) error
of switchToApp only ever reports a getSysmsgThread or FPUStateOffset
failure — never the in-band error code. -/
theorem switchToApp_msgErr_fatal (i : SwitchInputs)
    (hg : i.getThreadErr = false) (hp : i.interruptPending = false)
    (hre : i.msgType = EventType.syscallTrap ∨ i.fpuOffset.isSome = true)
    (he : i.msgErr ≠ 0) :
    (switchToApp i).1 = SwitchResult.panics ∧
    (∀ e fo, e ≠ 0 →
       getSysmsgThreadInitCheck e fo = InitCheckResult.panics) ∧
    (∀ j src, (switchToApp j).1 = SwitchResult.errReturn src →
       src = ErrSrc.getThreadFailed ∨ src = ErrSrc.fpuOffsetFailed) := by
  refine ⟨?_, ?_, ?_⟩
  · obtain ⟨w, hw⟩ := switchToApp_reach i hg hp hre
    rw [hw]
    simp [switchToAppTail, he]
  · intro e fo hen
    simp [getSysmsgThreadInitCheck, hen]
  · intro j src _
    cases src
    · exact Or.inl rfl
    · exact Or.inr rfl

/-- C7 witness. -/
theorem switchToApp_msgErr_fatal_witness :
    (switchToApp ⟨false, false, EventType.fault, 3, some 5, ⟨9⟩,
        false, 7⟩).1 = SwitchResult.panics ∧
    getSysmsgThreadInitCheck 3 (some 5) = InitCheckResult.panics := by
  have h := switchToApp_msgErr_fatal
    ⟨false, false, EventType.fault, 3, some 5, ⟨9⟩, false, 7⟩
    rfl rfl (Or.inr rfl) (by decide)
  exact ⟨h.1, h.2.1 3 (some 5) (by decide)⟩

/-- C4 counterexample: with msg.Type = Syscall but the delivered signal
recognized as spuriously injected by the supervisor (maybePatchSignalInfo
returns true), switchToApp returns `(isSyscall := false, shouldPatch :=
false)`, not `(isSyscall := true, shouldPatch := false)` as the claim
states for every Syscall event. -/
theorem switchToApp_spurious_signal_counterexample :
    (switchToApp ⟨false, false, EventType.syscall, 0, some 5, ⟨9⟩,
        true, 0⟩).1 = SwitchResult.ok false false ∧
    (switchToApp ⟨false, false, EventType.syscall, 0, some 5, ⟨9⟩,
        true, 0⟩).1 ≠ SwitchResult.ok true false := by
  constructor
  · rfl
  · decide

/-- C4 (amended): after the round-trip, with the delivered signal not
spurious, Syscall and SyscallTrap events return `(isSyscall := true,
shouldPatch := false)`; a spurious signal suppresses the syscall
classification and returns `(false, false)`.  SyscallCanBePatched is
rewritten to Syscall and returns `(true, true)` when not spurious, `(false,
false)` when spurious.  Fault returns `(false, false)`.  Any other event
type aborts the process. -/
theorem switchToApp_classification (i : SwitchInputs)
    (hg : i.getThreadErr = false) (hp : i.interruptPending = false)
    (hre : i.msgType = EventType.syscallTrap ∨ i.fpuOffset.isSome = true)
    (he : i.msgErr = 0) :
    ((i.msgType = EventType.syscall ∨ i.msgType = EventType.syscallTrap) →
       (i.spurious = false →
          (switchToApp i).1 = SwitchResult.ok true false) ∧
       (i.spurious = true →
          (switchToApp i).1 = SwitchResult.ok false false)) ∧
    (i.msgType = EventType.syscallCanBePatched →
       (switchToApp i).2.finalMsgType = EventType.syscall ∧
       (i.spurious = false →
          (switchToApp i).1 = SwitchResult.ok true true) ∧
       (i.spurious = true →
          (switchToApp i).1 = SwitchResult.ok false false)) ∧
    (i.msgType = EventType.fault →
       (switchToApp i).1 = SwitchResult.ok false false) ∧
    ((i.msgType = EventType.noneEv ∨ i.msgType = EventType.interrupt) →
       (switchToApp i).1 = SwitchResult.panics) := by
  obtain ⟨w, hw⟩ := switchToApp_reach i hg hp hre
  rw [hw]
  refine ⟨?_, ?_, ?_, ?_⟩
  · intro hmt
    constructor
    · intro hs
      rcases hmt with h | h <;>
        simp [switchToAppTail, switchToAppClassify, switchToAppFinish,
          he, h, hs]
    · intro hs
      rcases hmt with h | h <;>
        simp [switchToAppTail, switchToAppClassify, switchToAppFinish,
          he, h, hs]
  · intro hmt
    refine ⟨?_, ?_, ?_⟩
    · cases hs : i.spurious <;>
        simp [switchToAppTail, switchToAppClassify, switchToAppFinish,
          switchToAppFinish_snd, he, hmt, hs]
    · intro hs
      simp [switchToAppTail, switchToAppClassify, switchToAppFinish,
        he, hmt, hs]
    · intro hs
      simp [switchToAppTail, switchToAppClassify, switchToAppFinish,
        he, hmt, hs]
  · intro hmt
    simp [switchToAppTail, switchToAppClassify, switchToAppFinish, he, hmt]
  · intro hmt
    rcases hmt with h | h <;>
      simp [switchToAppTail, switchToAppClassify, switchToAppFinish, he, h]

/-- C4 witness for the amended claim: a non-spurious Syscall event returns
(true, false) and a non-spurious SyscallCanBePatched event returns
(true, true). -/
theorem switchToApp_classification_witness :
    (switchToApp ⟨false, false, EventType.syscall, 0, some 5, ⟨9⟩,
        false, 0⟩).1 = SwitchResult.ok true false ∧
    (switchToApp ⟨false, false, EventType.syscallCanBePatched, 0, some 5,
        ⟨9⟩, false, 0⟩).1 = SwitchResult.ok true true := by
  constructor
  · exact ((switchToApp_classification
      ⟨false, false, EventType.syscall, 0, some 5, ⟨9⟩, false, 0⟩
      rfl rfl (Or.inr rfl) rfl).1 (Or.inl rfl)).1 rfl
  · exact (((switchToApp_classification
      ⟨false, false, EventType.syscallCanBePatched, 0, some 5, ⟨9⟩, false, 0⟩
      rfl rfl (Or.inr rfl) rfl).2.1 rfl).2.1) rfl

/-- C8: when thread.wait observes a PTRACE_EVENT_EXIT trap (an unexpected
tracee exit), the exit is dichotomized: a tracee killed by SIGKILL is logged
and the tracer forwards SIGKILL to its own process, terminating it without
reaching the panic; every other unexpected exit panics with a register
dump. -/
theorem wait_unexpected_exit_dichotomy (evMsg : EventStatus)
    (st : WaitStatusS) (rest : List W4) (h1 : st.isStopped = true)
    (h2 : st.stopSig = SIGTRAP) (h3 : st.trapCause = PTRACE_EVENT_EXIT) :
    (evMsg.isSignaled = true ∧ evMsg.termSig = SIGKILL →
       threadWaitStopped evMsg (W4.ev st :: rest) =
         ThreadWaitRes.selfKilledBySIGKILL) ∧
    (¬(evMsg.isSignaled = true ∧ evMsg.termSig = SIGKILL) →
       threadWaitStopped evMsg (W4.ev st :: rest) =
         ThreadWaitRes.panicRegDump) := by
  have hs : threadWaitStopped evMsg (W4.ev st :: rest) =
      unexpectedStubExit evMsg := by
    simp [threadWaitStopped, h1, h2, h3, SIGTRAP, PTRACE_EVENT_EXIT]
  constructor
  · intro h
    rw [hs]
    simp [unexpectedStubExit, h.1, h.2]
  · intro h
    rw [hs]
    have hcond : (evMsg.isSignaled && (evMsg.termSig == SIGKILL)) = false := by
      by_cases hb : evMsg.isSignaled = true
      · by_cases ht : evMsg.termSig = SIGKILL
        · exact absurd ⟨hb, ht⟩ h
        · simp [hb, ht]
      · have hb2 : evMsg.isSignaled = false := by
          cases hq : evMsg.isSignaled
          · rfl
          · exact absurd hq hb
        simp [hb2]
    simp [unexpectedStubExit, hcond]

/-- C8 witness: a SIGKILLed tracee forwards the kill without panicking; any
other unexpected exit (here a plain exit) panics with a register dump. -/
theorem wait_unexpected_exit_dichotomy_witness :
    threadWaitStopped ⟨true, 9⟩ [W4.ev ⟨true, 5, 6⟩] =
      ThreadWaitRes.selfKilledBySIGKILL ∧
    threadWaitStopped ⟨false, 0⟩ [W4.ev ⟨true, 5, 6⟩] =
      ThreadWaitRes.panicRegDump := by
  constructor
  · exact (wait_unexpected_exit_dichotomy ⟨true, 9⟩ ⟨true, 5, 6⟩ []
      rfl rfl rfl).1 ⟨rfl, rfl⟩
  · exact (wait_unexpected_exit_dichotomy ⟨false, 0⟩ ⟨true, 5, 6⟩ []
      rfl rfl rfl).2 (by decide)

/-- Helper: after the pops and the rsp reload, the nine saved registers and
the stack are back to their entry values, rax and the sysmsg fields hold
what the handler left, and rsp points at the guest stack. -/
theorem afterRestore_eq (e : HandlerEffect) (s0 : SysState) :
    afterRestore e s0 =
      { s0 with rax := e.rax, rsp := e.appStack, msgType := e.msgType,
                msgInterrupt := e.msgInterrupt, msgRetAddr := e.msgRetAddr,
                appStack := e.appStack } := by
  simp only [afterRestore, pushOrder, popOrder, List.foldl_cons,
    List.foldl_nil, pushReg, popReg, applyHandler, getReg, setReg]

/-- C9: the stub dispatcher pushes and pops the same nine caller-clobbered
registers in symmetric LIFO order around the handler call, so every one of
them (and the dispatcher stack) is restored to its entry value no matter how
the handler clobbered them; after restoring, a Syscall event type issues
exactly one syscall with the sentinel number 0xffff and proceeds to the
final jump through the saved return address; a non-Syscall event with the
interrupt flag set writes Interrupt into the event type and triggers a
fault; otherwise control jumps to the saved return address with no syscall
issued. -/
theorem syshandler_contract (e : HandlerEffect) (s0 : SysState) :
    popOrder = pushOrder.reverse ∧
    (exportSyshandler e s0).2.stack = s0.stack ∧
    (∀ r : GPReg, getReg r (exportSyshandler e s0).2 = getReg r s0) ∧
    (exportSyshandler e s0).2.rsp = e.appStack ∧
    (e.msgType = EventType.syscall →
       (exportSyshandler e s0).1 = SysOutcome.jumpTo e.msgRetAddr [0xffff] ∧
       (exportSyshandler e s0).2.rax = 0xffff) ∧
    (e.msgType ≠ EventType.syscall → e.msgInterrupt ≠ 0 →
       (exportSyshandler e s0).1 = SysOutcome.faultTriggered [] ∧
       (exportSyshandler e s0).2.msgType = EventType.interrupt) ∧
    (e.msgType ≠ EventType.syscall → e.msgInterrupt = 0 →
       (exportSyshandler e s0).1 = SysOutcome.jumpTo e.msgRetAddr []) := by
  unfold exportSyshandler
  rw [afterRestore_eq]
  dsimp only
  refine ⟨rfl, ?_, ?_, ?_, ?_, ?_, ?_⟩
  · split_ifs <;> rfl
  · intro r
    split_ifs <;> cases r <;> rfl
  · split_ifs <;> rfl
  · intro hm
    rw [if_pos hm]
    exact ⟨rfl, rfl⟩
  · intro hm hi
    rw [if_neg hm, if_pos hi]
    exact ⟨rfl, rfl⟩
  · intro hm hi
    rw [if_neg hm, if_neg (not_not_intro hi)]

/-- C9 witness: with the handler reporting a Syscall event and clobbering
every register, the dispatcher issues the single sentinel syscall, jumps to
the saved return address, leaves the stack balanced, and has restored rcx to
its entry value. -/
theorem syshandler_contract_witness :
    (exportSyshandler
        ⟨1, 2, 3, 4, 5, 6, 7, 8, 9, 10, EventType.syscall, 0, 777, 555⟩
        ⟨11, 12, 13, 14, 15, 16, 17, 18, 19, 20, 21, [30],
         EventType.fault, 0, 0, 0⟩).1 = SysOutcome.jumpTo 777 [0xffff] ∧
    (exportSyshandler
        ⟨1, 2, 3, 4, 5, 6, 7, 8, 9, 10, EventType.syscall, 0, 777, 555⟩
        ⟨11, 12, 13, 14, 15, 16, 17, 18, 19, 20, 21, [30],
         EventType.fault, 0, 0, 0⟩).2.stack = [30] ∧
    getReg GPReg.rcx (exportSyshandler
        ⟨1, 2, 3, 4, 5, 6, 7, 8, 9, 10, EventType.syscall, 0, 777, 555⟩
        ⟨11, 12, 13, 14, 15, 16, 17, 18, 19, 20, 21, [30],
         EventType.fault, 0, 0, 0⟩).2 = 19 := by
  have h := syshandler_contract
    ⟨1, 2, 3, 4, 5, 6, 7, 8, 9, 10, EventType.syscall, 0, 777, 555⟩
    ⟨11, 12, 13, 14, 15, 16, 17, 18, 19, 20, 21, [30],
     EventType.fault, 0, 0, 0⟩
  exact ⟨(h.2.2.2.2.1 rfl).1, h.2.1, h.2.2.1 GPReg.rcx⟩

end Systrap
